import Mathlib

set_option autoImplicit false

/-!
Shallow embedding of `interpret/visual/dashboard.py` (interpret-core, visual
subpackage): the `AppRunner` server-lifecycle manager and the `DispatcherApp`
WSGI dispatcher, together with the port-allocation loop of
`AppRunner.__init__`.

Network and filesystem effects (socket binding, `requests.post`/`get`,
reading the favicon file, `gevent` server stop, thread liveness) are modelled
as explicit parameters: a predicate or `Except` value stands for the outcome
of each external call.  The pool of registered session applications is a
key-value list keyed by the string identifier `str(id(ctx))`; a Python object
is modelled by its identity.
-/

/-- A Python object, modelled by its identity `id(obj)`. -/
structure PyObj where
  pyId : Nat
deriving DecidableEq

/-- `DispatcherApp.obj_id`: `str(id(obj))`. -/
def obj_id (ctx : PyObj) : String := toString ctx.pyId

/-- `AppRunner._obj_id`: `str(id(obj))`. -/
def _obj_id (ctx : PyObj) : String := toString ctx.pyId

/-- `self.root_path` as set in `DispatcherApp.__init__`. -/
def root_path : String := "/"

/-- `self.shutdown_path` as set in `DispatcherApp.__init__`. -/
def shutdown_path : String := "/shutdown"

/-- `self.favicon_path` as set in `DispatcherApp.__init__`. -/
def favicon_path : String := "/favicon.ico"

/--
State of a `DispatcherApp` instance.  `A` is the type of registered session
applications (`app.server` objects produced by `_udash.generate_app`), `S`
the type of the hosting WSGI server handle.  `server` models
`self.config["server"]`, the only key ever stored in `self.config` (written
by `AppRunner._run`); `none` models an absent key, whose lookup raises
`KeyError`.  `pool` models the dict `self.pool` as a key-value list in
insertion order.
-/
structure DispatcherApp (A S : Type) where
  base_url : Option String
  use_relative_links : Bool
  pool : List (String × A)
  server : Option S

/-- `DispatcherApp.__init__`: empty pool, empty config. -/
def DispatcherApp.init (A S : Type) (base_url : Option String)
    (use_relative_links : Bool) : DispatcherApp A S :=
  { base_url := base_url, use_relative_links := use_relative_links,
    pool := [], server := none }

/-! ### The compiled path pattern

`DispatcherApp.__init__` compiles `/?(.+?)(/|$)` when `base_url is None` and
`/?(?:{base_url}/)?(.+?)(/|$)` otherwise, and `__call__` applies `re.search`
to `PATH_INFO`.  The functions below implement exactly this search for a
literal `base_url` (the code interpolates the configured prefix verbatim):
`.` matches any character except a newline, `(.+?)` is lazy, the two optional
prefixes are greedy with backtracking, and `re.search` scans left to right.
-/

/-- `.` of the pattern: any character but newline. -/
def dotMatch (c : Char) : Bool := c ≠ '\n'

/-- Lazy continuation of `(.+?)(/|$)` once `acc` (reversed, nonempty) is
captured: stop at `/` or at the end, otherwise extend by one `.`-matching
character. -/
def lazyGroupGo (acc : List Char) : List Char → Option (List Char)
  | [] => some acc.reverse
  | c :: rest =>
    if c = '/' then some acc.reverse
    else if dotMatch c then lazyGroupGo (c :: acc) rest
    else none

/-- Lazy match of `(.+?)(/|$)`: capture at least one character. -/
def lazyGroup : List Char → Option (List Char)
  | [] => none
  | c :: rest => if dotMatch c then lazyGroupGo [c] rest else none

/-- Match a literal sequence, returning the remainder. -/
def stripLit : List Char → List Char → Option (List Char)
  | [], cs => some cs
  | l :: ls, c :: cs => if c = l then stripLit ls cs else none
  | _ :: _, [] => none

/-- `(?:base/)?(.+?)(/|$)` at the current position: prefer consuming
`base/`, backtrack to not consuming it. -/
def tryBase (base : Option (List Char)) (cs : List Char) : Option (List Char) :=
  (match base with
   | some b =>
     match stripLit (b ++ ['/']) cs with
     | some rest => lazyGroup rest
     | none => none
   | none => none) <|> lazyGroup cs

/-- The whole pattern at one position: greedy optional `/`, with
backtracking. -/
def matchAt (base : Option (List Char)) (cs : List Char) : Option (List Char) :=
  (match cs with
   | '/' :: rest => tryBase base rest
   | _ => none) <|> tryBase base cs

/-- `re.search`: try every start position left to right. -/
def reSearch (base : Option (List Char)) : List Char → Option (List Char)
  | [] => matchAt base []
  | c :: rest => matchAt base (c :: rest) <|> reSearch base rest

/-- `re.search(self.app_pattern, path_info)` returning `match.group(1)`. -/
def app_pattern_search (base_url : Option String) (s : String) : Option String :=
  (reSearch (base_url.map String.data) s.data).map (fun g => String.mk g)

/-! ### Registration -/

/-- The `ctx_path` computed in `DispatcherApp.register` and handed to
`_udash.generate_app` as its pathname prefixes. -/
def DispatcherApp.ctx_path (base_url : Option String) (ctx_id : String) : String :=
  match base_url with
  | none => "/" ++ ctx_id ++ "/"
  | some b => "/" ++ b ++ "/" ++ ctx_id ++ "/"

/--
`DispatcherApp.register(ctx, share_tables)`.  `generate_app` models the
external session factory `_udash.generate_app`: its result stands for the
stored `app.server` (the `serve_locally` configuration flags set on the dash
app before storing are internal to the session object).  The result triple
exposes the computed identifier `ctx_id`, the new state, and the number of
factory invocations made by this call (the Python method returns `None`; the
identifier is exposed for specification purposes).  `O` is the type of the
`share_tables` option.
-/
def DispatcherApp.register {A S O : Type} (generate_app : PyObj → O → String → A)
    (st : DispatcherApp A S) (ctx : PyObj) (share_tables : O) :
    String × DispatcherApp A S × Nat :=
  let ctx_id := obj_id ctx
  match st.pool.lookup ctx_id with
  | none =>
    let app := generate_app ctx share_tables (DispatcherApp.ctx_path st.base_url ctx_id)
    (ctx_id, { st with pool := st.pool ++ [(ctx_id, app)] }, 1)
  | some _ => (ctx_id, st, 0)

/-! ### Dispatch -/

/-- The WSGI `environ` fields the dispatcher touches: `PATH_INFO` and
`SCRIPT_NAME` are read (the latter only logged); `REQUEST_METHOD` is carried
to show it is never consulted. -/
structure Environ where
  path_info : String
  script_name : String
  request_method : String

/-- A response: the status and headers passed to `start_response` plus the
returned body. -/
structure Response where
  status : String
  content_type : String
  body : String
deriving DecidableEq

/-- Outcomes of the external calls made while producing a response.  `E` is
the type of raised exceptions.  `keyErrorServer` is the `KeyError` raised by
`self.config["server"]` when no server was stored. -/
structure Handlers (A S E : Type) where
  serverStop : S → Except E Unit
  faviconRead : Except E String
  appCall : A → Environ → Except E Response
  keyErrorServer : E

/-- The `PATH_INFO` rewrite applied before delegating to a session
application: if `self.base_url` is truthy and the path does not start with
`/{base_url}`, prepend `/{base_url}`. -/
def rewrite_environ (base_url : Option String) (env : Environ) : Environ :=
  match base_url with
  | some b =>
    if (b != "") && !(env.path_info.startsWith ("/" ++ b)) then
      { env with path_info := "/" ++ b ++ env.path_info }
    else env
  | none => env

/-- The HTML template `body` of `DispatcherApp._root_content`, up to the
`$list` placeholder. -/
def rootBodyPre : String := "<!DOCTYPE html>
<html lang=\"en\">
<head>
    <meta charset=\"UTF-8\">
    <title>Backend Server</title>
</head>
<style>
body \x7b
    background-color: white;
    margin: 0;
    padding: 0;
    min-height: 100vh;
\x7d
.banner \x7b
    height: 65px;
    margin: 0;
    padding: 0;
    background-color: rgb(20, 100, 130);
    box-shadow: rgba(0, 0, 0, 0.1) 1px 2px 3px 0px;
\x7d
.banner h2\x7b
    color: white;
    margin-top: 0px;
    padding: 15px 0;
    text-align: center;
    font-family: Georgia, Times New Roman, Times, serif;
\x7d
.app \x7b
    background-color: rgb(245, 245, 250);
    min-height: 100vh;
    overflow: hidden;
\x7d
.card-header\x7b
    padding-top: 12px;
    padding-bottom: 12px;
    padding-left: 20px;
    padding-right: 20px;
    position: relative;
    line-height: 1;
    border-bottom: 1px solid #eaeff2;
    background-color: rgba(20, 100, 130, 0.78);
\x7d
.card-body\x7b
    padding-top: 30px;
    padding-bottom: 30px;
    position: relative;
    padding-left: 20px;
    padding-right: 20px;
\x7d
.card-title\x7b
    display: inline-block;
    margin: 0;
    color: #ffffff;
\x7d
.card \x7b
    border-radius: 3px;
    background-color: white;
    box-shadow: 0 2px 6px rgba(0, 0, 0, 0.08);
    border: 1px solid #d1d6e6;
    margin: 30px 20px;
\x7d
.link-container \x7b
    text-align: center;
\x7d
.link-container ul \x7b
    display: inline-block;
    margin: 0px;
    padding: 0px;
\x7d
.link-container li \x7b
    display: block;
    padding: 15px;
\x7d
.center \x7b
    position: absolute;
    left: 50%;
    top: 50%;
    -webkit-transform: translate(-50%, -50%);
    transform: translate(-50%, -50%);
\x7d
</style>
<body>
<div class=\"app\">
    <div class=\"banner\"><h2>Backend Server</h2></div>
    <div class=\"card\">
        <div class=\"card-header\">
            <div class=\"card-title\"><div class=\"center\">Active Links</div></div>
        </div>
        <div class=\"card-body\">
            <div class=\"link-container\">
                <ul>
                    "

/-- The HTML template after the `$list` placeholder. -/
def rootBodyPost : String := "
                </ul>
            </div>
        </div>
    </div>
</div>
</body>
</html>
"

/-- The `$list` items substituted by `_root_content`: one anchor per pool
key, in insertion order, or the fixed no-links item. -/
def root_list_items {A : Type} (base_url : Option String)
    (pool : List (String × A)) : String :=
  if pool.isEmpty then "<li>No active links.</li>"
  else
    String.intercalate "\n" (pool.map (fun kv =>
      "<li><a href=\"" ++
        (match base_url with
         | none => "/" ++ kv.1 ++ "/"
         | some b => "/" ++ b ++ "/" ++ kv.1 ++ "/") ++
        "\">" ++ kv.1 ++ "</a></li>"))

/-- `DispatcherApp._root_content`: the template with `$list` substituted. -/
def root_content {A S : Type} (st : DispatcherApp A S) : String :=
  rootBodyPre ++ root_list_items st.base_url st.pool ++ rootBodyPost

/--
The `try` body of `DispatcherApp.__call__`: control paths first, then the
pattern match and pool lookup, then delegation.  The result carries the
response, whether `server.stop()` completed (server termination triggered),
and the dispatcher state after the call.
-/
def dispatchTry {A S E : Type} (h : Handlers A S E) (st : DispatcherApp A S)
    (env : Environ) : Except E (Response × Bool × DispatcherApp A S) :=
  let path_info := env.path_info
  if path_info = root_path then
    .ok ({ status := "200 OK", content_type := "text/html",
           body := root_content st }, false, st)
  else if path_info = shutdown_path then
    match st.server with
    | none => .error h.keyErrorServer
    | some srv =>
      match h.serverStop srv with
      | .error e => .error e
      | .ok _ =>
        .ok ({ status := "200 OK", content_type := "text/html",
               body := "Shutdown" }, true, st)
  else if path_info = favicon_path then
    match h.faviconRead with
    | .error e => .error e
    | .ok content =>
      .ok ({ status := "200 OK", content_type := "image/x-icon",
             body := content }, false, st)
  else
    match app_pattern_search st.base_url path_info with
    | none =>
      .ok ({ status := "400 BAD REQUEST ERROR", content_type := "text/html",
             body := "URL not supported: " ++ path_info }, false, st)
    | some g =>
      match st.pool.lookup g with
      | none =>
        .ok ({ status := "400 BAD REQUEST ERROR", content_type := "text/html",
               body := "URL not supported: " ++ path_info }, false, st)
      | some app =>
        match h.appCall app (rewrite_environ st.base_url env) with
        | .error e => .error e
        | .ok resp => .ok (resp, false, st)

/-- `DispatcherApp.__call__`: the `try` body with the catch-all `except`
branch, which converts any raised error into the fixed 500 response. -/
def dispatch {A S E : Type} (h : Handlers A S E) (st : DispatcherApp A S)
    (env : Environ) : Response × Bool × DispatcherApp A S :=
  match dispatchTry h st env with
  | .ok r => r
  | .error _ =>
    ({ status := "500 INTERNAL SERVER ERROR", content_type := "text/plain",
       body := "Internal Server Error caught by Dispatcher. See logs if available." },
     false, st)

/-! ### Port allocation (`AppRunner.__init__`) -/

/-- `random.randint(7002, 7999)` applied to one draw of the pseudo-random
stream: an arbitrary value of the inclusive range. -/
def randint_7002_7999 (s : Nat) : Nat := 7002 + s % 998

/-- The message of the `RuntimeError` raised when no port is found. -/
def port_exhausted_msg : String :=
  "Could not find open port.\n                Consider calling `interpret.set_show_addr((\"127.0.0.1\", 7001))` first.\n                "

/--
The `for _ in range(max_attempts)` loop of `AppRunner.__init__`: check the
current port with `_local_port_available` (`avail`, the outcome of the
bind-and-release probe on loopback); on failure draw the next candidate from
`random.randint(7002, 7999)` (`seed draws` is the draw of the underlying
stream).  When the fuel runs out the `else` clause raises `RuntimeError`.
-/
def allocAux (avail : Nat → Bool) (seed : Nat → Nat) :
    Nat → Nat → Nat → Except String Nat
  | _, _, 0 => .error port_exhausted_msg
  | port, draws, fuel + 1 =>
    if avail port then .ok port
    else allocAux avail seed (randint_7002_7999 (seed draws)) (draws + 1) fuel

/-- Port allocation: start at the default port 7001 with
`max_attempts = 10`. -/
def allocatePort (avail : Nat → Bool) (seed : Nat → Nat) : Except String Nat :=
  allocAux avail seed 7001 0 10

/-- The list of ports the loop would probe, in order. -/
def candAux (seed : Nat → Nat) : Nat → Nat → Nat → List Nat
  | _, _, 0 => []
  | port, draws, fuel + 1 =>
    port :: candAux seed (randint_7002_7999 (seed draws)) (draws + 1) fuel

/-- The at most ten candidate ports probed when no address is pinned. -/
def port_candidates (seed : Nat → Nat) : List Nat := candAux seed 7001 0 10

/-! ### AppRunner -/

/-- The background server thread, observed through `is_alive()`; the field
records the liveness observed after `stop()`'s `join(timeout=5.0)` wait. -/
structure PyThread where
  is_alive : Bool
deriving DecidableEq

/-- The `join` timeout (seconds) used by `AppRunner.stop`. -/
def join_timeout_seconds : Nat := 5

/-- `AppRunner` state: the owned `DispatcherApp`, the bound address, the
configuration, and the background thread handle (`None` before `start()`). -/
structure AppRunner (A S : Type) where
  app : DispatcherApp A S
  ip : String
  port : Nat
  base_url : Option String
  use_relative_links : Bool
  thread : Option PyThread

/--
`AppRunner.__init__`: builds the `DispatcherApp`; with no explicit address,
runs the port-allocation loop for `127.0.0.1` (an exhausted loop raises,
modelled by `Except.error`, which propagates out of the constructor); with
an explicit `(ip, port)` pair, uses it as-is.
-/
def AppRunner.init (A S : Type) (addr : Option (String × Nat))
    (base_url : Option String) (use_relative_links : Bool)
    (avail : Nat → Bool) (seed : Nat → Nat) : Except String (AppRunner A S) :=
  let app := DispatcherApp.init A S base_url use_relative_links
  match addr with
  | none =>
    (allocatePort avail seed).map (fun p =>
      { app := app, ip := "127.0.0.1", port := p, base_url := base_url,
        use_relative_links := use_relative_links, thread := none })
  | some a =>
    .ok { app := app, ip := a.1, port := a.2, base_url := base_url,
          use_relative_links := use_relative_links, thread := none }

/-- Outcome of the `requests.post` self-request issued by `stop()`. -/
structure StopEnv where
  postResult : Except String Unit

/--
`AppRunner.stop`: no thread means success; a failed self-request to the
shutdown path reports failure; otherwise wait with
`join(timeout=join_timeout_seconds)` and, if the thread is still alive,
report failure leaving the handle in place, else clear the handle and report
success.
-/
def AppRunner.stop {A S : Type} (e : StopEnv) (r : AppRunner A S) :
    Bool × AppRunner A S :=
  match r.thread with
  | none => (true, r)
  | some t =>
    match e.postResult with
    | .error _ => (false, r)
    | .ok _ =>
      if t.is_alive then (false, r)
      else (true, { r with thread := none })

/-- `AppRunner.ping`: `requests.get` to the root URL, network errors
converted to `false`. -/
def ping (netGet : Except String Unit) : Bool :=
  match netGet with
  | .ok _ => true
  | .error _ => false

/-- The snapshot returned by `AppRunner.status`. -/
structure StatusRec where
  addr : String × Nat
  base_url : Option String
  use_relative_links : Bool
  thread_alive : Bool
  http_reachable : Bool
deriving DecidableEq

/-- `AppRunner.status`: local state combined with a fresh `ping()`. -/
def AppRunner.status {A S : Type} (r : AppRunner A S)
    (netGet : Except String Unit) : StatusRec :=
  { addr := (r.ip, r.port), base_url := r.base_url,
    use_relative_links := r.use_relative_links,
    thread_alive := match r.thread with | some t => t.is_alive | none => false,
    http_reachable := ping netGet }

/-- `AppRunner.display_link`: pure URL computation from the configuration
and the context identity. -/
def AppRunner.display_link {A S : Type} (r : AppRunner A S) (ctx : PyObj) : String :=
  let obj_path := _obj_id ctx ++ "/"
  let path :=
    match r.base_url with
    | none => obj_path
    | some b => b ++ "/" ++ obj_path
  let start_url :=
    if r.use_relative_links then "/"
    else "http://" ++ r.ip ++ ":" ++ toString r.port ++ "/"
  start_url ++ path

/-! ### Concrete instances used in closed statements -/

/-- A concrete handler environment in which every external call succeeds. -/
def hC : Handlers Nat Unit String :=
  { serverStop := fun _ => .ok (),
    faviconRead := .ok "icon",
    appCall := fun _ _ =>
      .ok { status := "200 OK", content_type := "text/html", body := "app" },
    keyErrorServer := "KeyError: server" }

/-- A dispatcher configured with base prefix `b`, empty pool, and a stored
server handle. -/
def stB : DispatcherApp Nat Unit :=
  { base_url := some "b", use_relative_links := false, pool := [],
    server := some () }

/-- A freshly initialized dispatcher: no base prefix, empty pool, no server
stored yet. -/
def stEmpty : DispatcherApp Nat Unit := DispatcherApp.init Nat Unit none false

/-- A started manager whose background thread is still alive after the
`join` wait. -/
def runnerStuck : AppRunner Nat Unit :=
  { app := DispatcherApp.init Nat Unit none false, ip := "127.0.0.1",
    port := 7001, base_url := none, use_relative_links := false,
    thread := some { is_alive := true } }

/-! ### Helper lemmas -/

theorem lookup_append_single {A : Type} (l : List (String × A)) (k : String) (a : A)
    (h : l.lookup k = none) : (l ++ [(k, a)]).lookup k = some a := by
  induction l with
  | nil => simp [List.lookup]
  | cons p t ih =>
    obtain ⟨q, b⟩ := p
    simp only [List.cons_append, List.lookup] at h ⊢
    cases hk : (k == q) with
    | true => rw [hk] at h; simp at h
    | false => rw [hk] at h; exact ih h

theorem allocAux_eq_find (avail : Nat → Bool) (seed : Nat → Nat) :
    ∀ (fuel port draws : Nat),
      allocAux avail seed port draws fuel =
        (match (candAux seed port draws fuel).find? avail with
         | some p => Except.ok p
         | none => Except.error port_exhausted_msg) := by
  intro fuel
  induction fuel with
  | zero => intro port draws; rfl
  | succ n ih =>
    intro port draws
    simp only [allocAux, candAux, List.find?]
    cases h : avail port with
    | true => simp
    | false => simp [ih]

theorem candAux_mem (seed : Nat → Nat) :
    ∀ (fuel port draws q : Nat), q ∈ candAux seed port draws fuel →
      q = port ∨ ∃ k, q = randint_7002_7999 (seed k) := by
  intro fuel
  induction fuel with
  | zero => intro port draws q hq; simp [candAux] at hq
  | succ n ih =>
    intro port draws q hq
    simp only [candAux, List.mem_cons] at hq
    rcases hq with h | h
    · exact Or.inl h
    · rcases ih _ _ q h with h2 | h2
      · exact Or.inr ⟨draws, h2⟩
      · exact Or.inr h2

theorem candAux_length (seed : Nat → Nat) :
    ∀ (fuel port draws : Nat), (candAux seed port draws fuel).length = fuel := by
  intro fuel
  induction fuel with
  | zero => intro port draws; rfl
  | succ n ih => intro port draws; simp [candAux, ih]

theorem randint_range (s : Nat) :
    7002 ≤ randint_7002_7999 s ∧ randint_7002_7999 s ≤ 7999 := by
  unfold randint_7002_7999
  have h : s % 998 < 998 := Nat.mod_lt s (by norm_num)
  omega

/-- `register` on an identifier already in the pool: no factory call, state
unchanged. -/
theorem register_hit {A S O : Type} (generate_app : PyObj → O → String → A)
    (st : DispatcherApp A S) (ctx : PyObj) (o : O) (a : A)
    (h : st.pool.lookup (obj_id ctx) = some a) :
    DispatcherApp.register generate_app st ctx o = (obj_id ctx, st, 0) := by
  simp only [DispatcherApp.register]
  rw [h]

/-- `register` on a fresh identifier: one factory call, entry appended. -/
theorem register_miss {A S O : Type} (generate_app : PyObj → O → String → A)
    (st : DispatcherApp A S) (ctx : PyObj) (o : O)
    (h : st.pool.lookup (obj_id ctx) = none) :
    DispatcherApp.register generate_app st ctx o =
      (obj_id ctx,
       { st with pool := st.pool ++ [(obj_id ctx,
           generate_app ctx o (DispatcherApp.ctx_path st.base_url (obj_id ctx)))] },
       1) := by
  simp only [DispatcherApp.register]
  rw [h]

/-- C1: Registration is idempotent.  Starting from a state with no entry for
the context's identifier, the first `register` call invokes the session
factory exactly once and stores the resulting application under the
identifier derived from the context's identity; the second call with the
same context invokes the factory zero times (so the factory runs exactly
once over both calls) and leaves the registry unchanged; both calls yield
the same identifier. -/
theorem register_twice_idempotent {A S O : Type}
    (generate_app : PyObj → O → String → A) (st : DispatcherApp A S)
    (ctx : PyObj) (o : O)
    (hfresh : st.pool.lookup (obj_id ctx) = none) :
    (DispatcherApp.register generate_app st ctx o).2.2 = 1 ∧
    (DispatcherApp.register generate_app st ctx o).2.1.pool.lookup (obj_id ctx) =
      some (generate_app ctx o (DispatcherApp.ctx_path st.base_url (obj_id ctx))) ∧
    (DispatcherApp.register generate_app
        (DispatcherApp.register generate_app st ctx o).2.1 ctx o).2.1 =
      (DispatcherApp.register generate_app st ctx o).2.1 ∧
    (DispatcherApp.register generate_app
        (DispatcherApp.register generate_app st ctx o).2.1 ctx o).2.2 = 0 ∧
    (DispatcherApp.register generate_app st ctx o).1 = obj_id ctx ∧
    (DispatcherApp.register generate_app
        (DispatcherApp.register generate_app st ctx o).2.1 ctx o).1 =
      (DispatcherApp.register generate_app st ctx o).1 := by
  have h1 := register_miss generate_app st ctx o hfresh
  have hlook : (DispatcherApp.register generate_app st ctx o).2.1.pool.lookup (obj_id ctx) =
      some (generate_app ctx o (DispatcherApp.ctx_path st.base_url (obj_id ctx))) := by
    rw [h1]
    exact lookup_append_single st.pool (obj_id ctx) _ hfresh
  have h2 := register_hit generate_app
    (DispatcherApp.register generate_app st ctx o).2.1 ctx o _ hlook
  refine ⟨?_, hlook, ?_, ?_, ?_, ?_⟩
  · rw [h1]
  · rw [h2]
  · rw [h2]
  · rw [h1]
  · rw [h2, h1]

/-- C1 witness. -/
theorem register_twice_idempotent_witness :
    (DispatcherApp.init Nat Unit none false).pool.lookup (obj_id ⟨7⟩) = none ∧
    (DispatcherApp.register (fun _ _ _ => (3 : Nat))
      (DispatcherApp.init Nat Unit none false) ⟨7⟩ ()).2.2 = 1 :=
  ⟨rfl, (register_twice_idempotent (fun _ _ _ => (3 : Nat))
    (DispatcherApp.init Nat Unit none false) ⟨7⟩ () rfl).1⟩

/-- C2: With no explicit address, the allocator probes the fixed default
port 7001 first (a bind-and-release availability probe on loopback
`127.0.0.1`), retries with pseudo-random candidates from the fixed range
`[7002, 7999]` on failure, probes at most 10 candidate ports in total
(allocation is exactly the first available among the ten candidates), and
raises a fatal error that propagates out of the constructor if every probe
fails; with an explicit address, allocation is skipped and the address is
used as-is. -/
theorem port_allocation_spec {A S : Type} (b : Option String) (u : Bool)
    (avail : Nat → Bool) (seed : Nat → Nat) :
    (∀ (ip : String) (p : Nat),
      AppRunner.init A S (some (ip, p)) b u avail seed =
        .ok { app := DispatcherApp.init A S b u, ip := ip, port := p,
              base_url := b, use_relative_links := u, thread := none }) ∧
    (avail 7001 = true →
      AppRunner.init A S none b u avail seed =
        .ok { app := DispatcherApp.init A S b u, ip := "127.0.0.1", port := 7001,
              base_url := b, use_relative_links := u, thread := none }) ∧
    (allocatePort avail seed =
      (match (port_candidates seed).find? avail with
       | some p => Except.ok p
       | none => Except.error port_exhausted_msg)) ∧
    (port_candidates seed).length = 10 ∧
    (port_candidates seed).head? = some 7001 ∧
    (∀ q ∈ (port_candidates seed).tail, 7002 ≤ q ∧ q ≤ 7999) ∧
    ((∀ q ∈ port_candidates seed, avail q = false) →
      AppRunner.init A S none b u avail seed = .error port_exhausted_msg) := by
  have hchar : allocatePort avail seed =
      (match (port_candidates seed).find? avail with
       | some p => Except.ok p
       | none => Except.error port_exhausted_msg) :=
    allocAux_eq_find avail seed 10 7001 0
  have hcand : port_candidates seed =
      7001 :: candAux seed (randint_7002_7999 (seed 0)) 1 9 := rfl
  refine ⟨fun ip p => rfl, ?_, hchar, candAux_length seed 10 7001 0, rfl, ?_, ?_⟩
  · intro h
    have hfind : (port_candidates seed).find? avail = some 7001 := by
      rw [hcand]
      exact List.find?_cons_of_pos _ h
    have halloc : allocatePort avail seed = Except.ok 7001 := by
      rw [hchar, hfind]
    simp only [AppRunner.init, halloc, Except.map]
  · intro q hq
    have htail : (port_candidates seed).tail =
        candAux seed (randint_7002_7999 (seed 0)) 1 9 := rfl
    rw [htail] at hq
    rcases candAux_mem seed 9 (randint_7002_7999 (seed 0)) 1 q hq with h | ⟨k, h⟩
    · rw [h]; exact randint_range (seed 0)
    · rw [h]; exact randint_range (seed k)
  · intro hall
    have hfind : (port_candidates seed).find? avail = none :=
      List.find?_eq_none.mpr (fun x hx => by rw [hall x hx]; simp)
    have halloc : allocatePort avail seed = Except.error port_exhausted_msg := by
      rw [hchar, hfind]
    simp only [AppRunner.init, halloc, Except.map]

/-- C2 witness. -/
theorem port_allocation_spec_witness :
    AppRunner.init Nat Unit none none false (fun _ => true) (fun _ => 0) =
      .ok { app := DispatcherApp.init Nat Unit none false, ip := "127.0.0.1",
            port := 7001, base_url := none, use_relative_links := false,
            thread := none } ∧
    AppRunner.init Nat Unit none none false (fun _ => false) (fun _ => 0) =
      .error port_exhausted_msg :=
  ⟨(port_allocation_spec (A := Nat) (S := Unit) none false
      (fun _ => true) (fun _ => 0)).2.1 rfl,
   (port_allocation_spec (A := Nat) (S := Unit) none false
      (fun _ => false) (fun _ => 0)).2.2.2.2.2.2 (fun _ _ => rfl)⟩

/-- Dispatching a request whose `PATH_INFO` is the (absolute) shutdown path
with a stored server whose stop call succeeds. -/
theorem dispatch_shutdown_eq {A S E : Type} (h : Handlers A S E)
    (st : DispatcherApp A S) (env : Environ) (srv : S)
    (hp : env.path_info = shutdown_path) (hs : st.server = some srv)
    (hstop : h.serverStop srv = .ok ()) :
    dispatch h st env =
      ({ status := "200 OK", content_type := "text/html", body := "Shutdown" },
       true, st) := by
  have htry : dispatchTry h st env =
      .ok ({ status := "200 OK", content_type := "text/html", body := "Shutdown" },
           true, st) := by
    simp [dispatchTry, hp, hs, hstop, shutdown_path, root_path]
  simp only [dispatch, htry]

/-- Dispatching a request whose `PATH_INFO` is the (absolute) root path. -/
theorem dispatch_root_eq {A S E : Type} (h : Handlers A S E)
    (st : DispatcherApp A S) (env : Environ)
    (hp : env.path_info = root_path) :
    dispatch h st env =
      ({ status := "200 OK", content_type := "text/html", body := root_content st },
       false, st) := by
  have htry : dispatchTry h st env =
      .ok ({ status := "200 OK", content_type := "text/html",
             body := root_content st }, false, st) := by
    simp [dispatchTry, hp, root_path]
  simp only [dispatch, htry]

/-- Dispatching a request whose `PATH_INFO` is the (absolute) favicon path
when the icon read succeeds. -/
theorem dispatch_favicon_eq {A S E : Type} (h : Handlers A S E)
    (st : DispatcherApp A S) (env : Environ) (content : String)
    (hp : env.path_info = favicon_path) (hfav : h.faviconRead = .ok content) :
    dispatch h st env =
      ({ status := "200 OK", content_type := "image/x-icon", body := content },
       false, st) := by
  have htry : dispatchTry h st env =
      .ok ({ status := "200 OK", content_type := "image/x-icon",
             body := content }, false, st) := by
    simp [dispatchTry, hp, hfav, favicon_path, root_path, shutdown_path]
  simp only [dispatch, htry]

/-- C3 counterexample: with configured base prefix `b`, a request to
`/b/shutdown` — the shutdown path under the prefix — is NOT recognized as a
control path: it yields HTTP 400 and does not trigger server termination,
refuting the claim that the control paths are recognized relative to the
configured base prefix. -/
theorem shutdown_under_prefix_yields_400 :
    (dispatch hC stB { path_info := "/b/shutdown", script_name := "", request_method := "POST" }).1.status = "400 BAD REQUEST ERROR" ∧
    (dispatch hC stB { path_info := "/b/shutdown", script_name := "", request_method := "POST" }).2.1 = false := by
  constructor <;> rfl

/-- C3 (amended): the three control paths are fixed absolute paths,
independent of the configured base prefix.  For every dispatcher state —
whatever base prefix is configured — the absolute path `/shutdown` returns
HTTP 200 with the fixed acknowledgement body and triggers server
termination (given a stored server whose stop call succeeds), the absolute
root path returns the HTTP 200 status page, and the absolute favicon path
returns the icon with HTTP 200; the prefixed `/{base}/shutdown` is not a
control path (see the counterexample). -/
theorem control_paths_absolute {A S E : Type} (h : Handlers A S E)
    (st : DispatcherApp A S) (env : Environ) (srv : S) (content : String) :
    (env.path_info = shutdown_path → st.server = some srv →
      h.serverStop srv = .ok () →
      dispatch h st env =
        ({ status := "200 OK", content_type := "text/html", body := "Shutdown" },
         true, st)) ∧
    (env.path_info = root_path →
      dispatch h st env =
        ({ status := "200 OK", content_type := "text/html",
           body := root_content st }, false, st)) ∧
    (env.path_info = favicon_path →
      h.faviconRead = .ok content →
      dispatch h st env =
        ({ status := "200 OK", content_type := "image/x-icon", body := content },
         false, st)) :=
  ⟨fun hp hs hstop => dispatch_shutdown_eq h st env srv hp hs hstop,
   fun hp => dispatch_root_eq h st env hp,
   fun hp hfav => dispatch_favicon_eq h st env content hp hfav⟩

/-- C3 witness. -/
theorem control_paths_absolute_witness :
    dispatch hC stB { path_info := "/shutdown", script_name := "", request_method := "POST" } =
      ({ status := "200 OK", content_type := "text/html", body := "Shutdown" },
       true, stB) :=
  (control_paths_absolute hC stB
    { path_info := "/shutdown", script_name := "", request_method := "POST" }
    () "icon").1 rfl rfl rfl

/-- C4: an inbound request whose path is none of the three control paths
and whose parsed first segment resolves to no registered identifier (the
pattern fails to match, or the pool lookup of the captured group fails)
yields HTTP 400 with a diagnostic body that ends with — hence contains —
the literal unsupported request path, and leaves the state unchanged. -/
theorem unresolved_path_400 {A S E : Type} (h : Handlers A S E)
    (st : DispatcherApp A S) (env : Environ)
    (h1 : env.path_info ≠ root_path) (h2 : env.path_info ≠ shutdown_path)
    (h3 : env.path_info ≠ favicon_path)
    (h4 : (app_pattern_search st.base_url env.path_info).bind
        (fun g => st.pool.lookup g) = none) :
    dispatch h st env =
      ({ status := "400 BAD REQUEST ERROR", content_type := "text/html",
         body := "URL not supported: " ++ env.path_info }, false, st) ∧
    env.path_info.data <:+ ("URL not supported: " ++ env.path_info).data := by
  constructor
  · have htry : dispatchTry h st env =
        .ok ({ status := "400 BAD REQUEST ERROR", content_type := "text/html",
               body := "URL not supported: " ++ env.path_info }, false, st) := by
      simp only [dispatchTry, if_neg h1, if_neg h2, if_neg h3]
      cases hm : app_pattern_search st.base_url env.path_info with
      | none => rfl
      | some g =>
        rw [hm] at h4
        simp only [Option.some_bind] at h4
        simp [h4]
    simp only [dispatch, htry]
  · have hd : ("URL not supported: " ++ env.path_info).data =
        "URL not supported: ".data ++ env.path_info.data := String.data_append _ _
    rw [hd]
    exact List.suffix_append _ _

/-- C4 witness. -/
theorem unresolved_path_400_witness :
    dispatch hC stEmpty { path_info := "/nope/", script_name := "", request_method := "GET" } =
      ({ status := "400 BAD REQUEST ERROR", content_type := "text/html",
         body := "URL not supported: " ++ "/nope/" }, false, stEmpty) :=
  (unresolved_path_400 hC stEmpty
    { path_info := "/nope/", script_name := "", request_method := "GET" }
    (by decide) (by decide) (by decide) (by decide)).1

/-- C5: any error raised while producing a response is caught at the
dispatcher boundary and converted into the HTTP 500 response whose body is
the fixed generic message — a constant independent of the raised error `e`,
which is universally quantified and absent from the right-hand side — and
the error is never re-raised past the request boundary: `dispatch` is a
total function into responses. -/
theorem uncaught_error_500 {A S E : Type} (h : Handlers A S E)
    (st : DispatcherApp A S) (env : Environ) (e : E)
    (herr : dispatchTry h st env = .error e) :
    dispatch h st env =
      ({ status := "500 INTERNAL SERVER ERROR", content_type := "text/plain",
         body := "Internal Server Error caught by Dispatcher. See logs if available." },
       false, st) := by
  simp only [dispatch, herr]

/-- C5 witness: requesting `/shutdown` with no stored server raises a
`KeyError`, which the boundary converts into the fixed 500 response. -/
theorem uncaught_error_500_witness :
    dispatchTry hC stEmpty { path_info := "/shutdown", script_name := "", request_method := "POST" } = .error "KeyError: server" ∧
    dispatch hC stEmpty { path_info := "/shutdown", script_name := "", request_method := "POST" } =
      ({ status := "500 INTERNAL SERVER ERROR", content_type := "text/plain",
         body := "Internal Server Error caught by Dispatcher. See logs if available." },
       false, stEmpty) :=
  ⟨rfl, uncaught_error_500 hC stEmpty
    { path_info := "/shutdown", script_name := "", request_method := "POST" }
    "KeyError: server" rfl⟩

/-- C6: the shutdown route depends only on the request path, not on the
HTTP method or the requester: a request to `/shutdown` with any method — in
particular an externally issued GET, not only the self-issued POST —
triggers server termination and returns HTTP 200 with the fixed
acknowledgement body.  The method is universally quantified and never
consulted by the dispatcher. -/
theorem shutdown_any_method {A S E : Type} (h : Handlers A S E)
    (st : DispatcherApp A S) (srv : S) (method sn : String)
    (hs : st.server = some srv) (hstop : h.serverStop srv = .ok ()) :
    dispatch h st
      { path_info := shutdown_path, script_name := sn, request_method := method } =
      ({ status := "200 OK", content_type := "text/html", body := "Shutdown" },
       true, st) :=
  dispatch_shutdown_eq h st
    { path_info := shutdown_path, script_name := sn, request_method := method }
    srv rfl hs hstop

/-- C6 witness: an external GET to `/shutdown`. -/
theorem shutdown_any_method_witness :
    dispatch hC stB { path_info := shutdown_path, script_name := "", request_method := "GET" } =
      ({ status := "200 OK", content_type := "text/html", body := "Shutdown" },
       true, stB) :=
  shutdown_any_method hC stB () "GET" "" rfl rfl

/-- C7: on a started manager (live thread handle) whose self-issued
shutdown request succeeds, if the background thread is still alive after
`stop()`'s bounded `join(timeout=5.0)` wait, then `stop()` reports failure
by returning `false` and leaves the thread handle in place, so the
still-running background unit remains observable through `status()`'s
`thread_alive` field. -/
theorem stop_timeout_observable {A S : Type} (e : StopEnv) (r : AppRunner A S)
    (t : PyThread) (netGet : Except String Unit)
    (ht : r.thread = some t) (halive : t.is_alive = true)
    (hpost : e.postResult = .ok ()) :
    AppRunner.stop e r = (false, r) ∧
    (AppRunner.status (AppRunner.stop e r).2 netGet).thread_alive = true := by
  have hstop : AppRunner.stop e r = (false, r) := by
    simp [AppRunner.stop, ht, hpost, halive]
  refine ⟨hstop, ?_⟩
  rw [hstop]
  simp [AppRunner.status, ht, halive]

/-- C7 witness. -/
theorem stop_timeout_observable_witness :
    AppRunner.stop { postResult := .ok () } runnerStuck = (false, runnerStuck) ∧
    (AppRunner.status (AppRunner.stop { postResult := .ok () } runnerStuck).2
      (.ok ())).thread_alive = true :=
  stop_timeout_observable { postResult := .ok () } runnerStuck
    { is_alive := true } (.ok ()) rfl rfl rfl

/-- `dispatchTry` returns the dispatcher state it was given: no branch of
the request handler writes to the state. -/
theorem dispatchTry_state {A S E : Type} (h : Handlers A S E)
    (st : DispatcherApp A S) (env : Environ)
    (r : Response × Bool × DispatcherApp A S)
    (hr : dispatchTry h st env = .ok r) : r.2.2 = st := by
  simp only [dispatchTry] at hr
  repeat' split at hr
  all_goals first
    | exact Except.noConfusion hr
    | rw [← Except.ok.inj hr]

/-- C9: handling any inbound request leaves the session registry unchanged:
the dispatcher state returned by `dispatch` has exactly the input pool.
The registry is mutated only by the registration operation, which either
leaves the pool unchanged making no factory call (identifier already
present) or appends exactly the one new entry with one factory call (fresh
identifier). -/
theorem dispatch_frame {A S E O : Type} (h : Handlers A S E)
    (st : DispatcherApp A S) (env : Environ)
    (generate_app : PyObj → O → String → A) (st2 : DispatcherApp A S)
    (ctx : PyObj) (o : O) :
    (dispatch h st env).2.2.pool = st.pool ∧
    ((DispatcherApp.register generate_app st2 ctx o).2.1.pool = st2.pool ∧
       (DispatcherApp.register generate_app st2 ctx o).2.2 = 0 ∨
     (DispatcherApp.register generate_app st2 ctx o).2.1.pool =
       st2.pool ++ [(obj_id ctx,
         generate_app ctx o (DispatcherApp.ctx_path st2.base_url (obj_id ctx)))] ∧
       (DispatcherApp.register generate_app st2 ctx o).2.2 = 1) := by
  constructor
  · cases hr : dispatchTry h st env with
    | ok r =>
      simp only [dispatch, hr]
      rw [dispatchTry_state h st env r hr]
    | error e => simp only [dispatch, hr]
  · cases hl : st2.pool.lookup (obj_id ctx) with
    | none =>
      right
      rw [register_miss generate_app st2 ctx o hl]
      exact ⟨rfl, rfl⟩
    | some a =>
      left
      rw [register_hit generate_app st2 ctx o a hl]
      exact ⟨rfl, rfl⟩

/-- C10: `display_link` computes its URL purely from the manager's
configuration (address, base URL prefix, use-relative-links flag) and the
context object's identity: for every context — registered or not — the
result has the fixed shape `prefix ++ optional base ++ identifier ++ "/"`,
and replacing the owned dispatcher (hence the whole session registry) by
any other leaves the result unchanged: the registry is never consulted. -/
theorem display_link_shape {A S : Type} (r : AppRunner A S) (ctx : PyObj) :
    AppRunner.display_link r ctx =
      (if r.use_relative_links then "/"
       else "http://" ++ r.ip ++ ":" ++ toString r.port ++ "/") ++
      ((match r.base_url with | none => "" | some b => b ++ "/") ++
       (_obj_id ctx ++ "/")) ∧
    ∀ (st2 : DispatcherApp A S),
      AppRunner.display_link { r with app := st2 } ctx =
        AppRunner.display_link r ctx := by
  constructor
  · simp only [AppRunner.display_link]
    cases hb : r.base_url with
    | none => rfl
    | some b => rfl
  · intro st2
    rfl
